import Mathlib

/-!
Verification of the AI Search Optimization Evaluator (src/app.py).

The application loops over a fixed catalog of 8 principles; for each it
builds a prompt from the user content, calls a text-generation pipeline
with `max_new_tokens=256`, and extracts a score from the reply by naive
string scanning (app.py lines 92-104).  This file gives a shallow
embedding of that pipeline: the generator is an explicit parameter
`String → Nat → Except String String` (prompt, token budget; `Except.error`
models a raised Python exception), and the per-call prompt/budget trace and
the catalog threaded through the loop are made observable so that
call-order, abort and frame properties can be stated.
-/

namespace AISearchEval

/-- One evaluation criterion, app.py lines 18-59: a dict with keys
`title`, `description`, `prompt`. -/
structure Principle where
  title : String
  description : String
  prompt : String
deriving Repr, DecidableEq

/-- The fixed catalog `principles`, transcribed from app.py lines 18-59. -/
def principles : List Principle := [
  { title := "Chunk-Level Retrieval",
    description := "Is each section self-contained and focused on one topic?",
    prompt := "Analyze if the content contains semantically complete chunks that are self-contained and independently understandable. Does each section focus on a single idea? Rate 0-10 and explain." },
  { title := "Answer Synthesis Optimization",
    description := "Is the answer easy to extract and fit into multi-source AI answers?",
    prompt := "Evaluate if the content is structured with a summary followed by elaboration, plain tone, and Q&A format. Rate 0-10 and explain." },
  { title := "Citation-Worthiness",
    description := "Does the content look trustworthy and fact-based?",
    prompt := "Check if content includes citations, author credentials, accurate claims, and timestamps. Rate 0-10 and explain." },
  { title := "Topical Breadth & Depth",
    description := "Does the site use hub-cluster model to fully cover a topic?",
    prompt := "Assess if the content follows a pillar-and-cluster approach, linking to detailed subtopics. Rate 0-10 and explain." },
  { title := "Multi-Modal Support",
    description := "Are visuals and tables machine-readable and helpful?",
    prompt := "Evaluate if the content uses HTML tables, descriptive alt text, <figure> markup, and captions for images. Rate 0-10 and explain." },
  { title := "Authoritativeness Signals",
    description := "Is there clear EEAT (expertise, authority, trust) in the content?",
    prompt := "Check for expert bylines, original data, external mentions, structured metadata, and citations. Rate 0-10 and explain." },
  { title := "Personalization Resilience",
    description := "Does the content serve diverse intents, personas, or regions?",
    prompt := "Analyze if content targets multiple personas, intents, and locales with segmented sections. Rate 0-10 and explain." },
  { title := "AI Crawlability & Indexability",
    description := "Is the content accessible and indexable by AI bots?",
    prompt := "Evaluate if content is server-rendered, allows AI bots via robots.txt, and avoids noindex/nosnippet. Rate 0-10 and explain." }
]

/-! ## Score extraction (app.py lines 97-98) -/

/-- Python line terminators recognised by `str.splitlines` (besides the
two-character sequence CR LF, handled separately). -/
def isLineTerminator (c : Char) : Bool :=
  c = '\n' || c = '\r' || c = '\x0b' || c = '\x0c' ||
  c = '\x1c' || c = '\x1d' || c = '\x1e' || c = '\x85' ||
  c = '\u2028' || c = '\u2029'

/-- Worker for `splitlines`: `acc` holds the current line reversed. -/
def splitlinesGo : List Char → List Char → List String
  | [], acc => [String.mk acc.reverse]
  | '\r' :: '\n' :: rest, acc =>
    String.mk acc.reverse :: (if rest.isEmpty then [] else splitlinesGo rest [])
  | c :: rest, acc =>
    if isLineTerminator c then
      String.mk acc.reverse :: (if rest.isEmpty then [] else splitlinesGo rest [])
    else
      splitlinesGo rest (c :: acc)

/-- Python `str.splitlines`: splits at line terminators, a trailing
terminator produces no final empty line, and the empty string gives `[]`. -/
def splitlines (s : String) : List String :=
  if s = "" then [] else splitlinesGo s.toList []

/-- ASCII decimal digit, the model of Python `str.isdigit` on the
characters relevant here (non-ASCII Unicode digits are outside the model). -/
def isDigitChar (c : Char) : Bool := '0' ≤ c && c ≤ '9'

/-- Value of a string of decimal digits read left to right, the model of
Python `int` applied to the concatenation of the digit characters
(`digitsVal [] = 0` by convention of the fold). -/
def digitsVal (cs : List Char) : Nat :=
  cs.foldl (fun a c => 10 * a + (c.toNat - 48)) 0

/-- `startsWith l pat`: `pat` is an initial segment of `l`. -/
def startsWith : List Char → List Char → Bool
  | _, [] => true
  | [], _ :: _ => false
  | a :: as, b :: bs => a = b && startsWith as bs

/-- `containsSub pat l`: the model of Python `pat in l`, substring
containment of character lists. -/
def containsSub (pat : List Char) : List Char → Bool
  | [] => startsWith [] pat
  | c :: cs => startsWith (c :: cs) pat || containsSub pat cs

/-- app.py line 97, the line filter:
`any(str(n) in line for n in range(0, 11))`. -/
def matchesScoreCheck (line : String) : Bool :=
  (List.range 11).any fun n => containsSub (toString n).toList line.toList

/-- app.py line 97:
`next((line for line in reply.splitlines() if ...), "Score: 0")`. -/
def score_line (reply : String) : String :=
  ((splitlines reply).find? matchesScoreCheck).getD "Score: 0"

/-- app.py line 98:
`int(''.join(filter(str.isdigit, score_line))) if any(char.isdigit() for char in score_line) else 0`. -/
def extract_score (reply : String) : Int :=
  let line := score_line reply
  if line.toList.any isDigitChar then
    (digitsVal (line.toList.filter isDigitChar) : Int)
  else 0

/-! ## The evaluation loop (app.py lines 92-104) -/

/-- Whitespace as recognised by Python `str.strip` (the ASCII part; the
rare non-ASCII Unicode spaces are outside the model). -/
def pyIsSpace (c : Char) : Bool :=
  c = ' ' || c = '\t' || c = '\n' || c = '\r' || c = '\x0b' || c = '\x0c'

/-- Python `str.strip()`: remove leading and trailing whitespace. -/
def strip (s : String) : String :=
  String.mk (((s.toList.dropWhile pyIsSpace).reverse.dropWhile pyIsSpace).reverse)

/-- One row of the result list built at app.py lines 99-103. -/
structure EvalResult where
  principle : String
  score : Int
  explanation : String
deriving Repr, DecidableEq

/-- app.py line 95:
`full_prompt = f"Content:\n{content}\n\nInstruction:\n{p['prompt']}"`. -/
def full_prompt (content : String) (p : Principle) : String :=
  "Content:\n" ++ content ++ "\n\nInstruction:\n" ++ p.prompt

/-- The text-generation pipeline as seen by the loop: a prompt and a
`max_new_tokens` budget produce either a reply (`generated_text`) or a
raised exception (`Except.error`). -/
def Generator : Type := String → Nat → Except String String

/-- Instrumented output of the `for p in principles` loop: the
(prompt, max_new_tokens) pair of every generator call actually made, the
catalog as it stands when the loop finishes or aborts, and the result
(`Except.error` = the uncaught Python exception propagating out). -/
structure LoopOut where
  calls : List (String × Nat)
  catalogAfter : List Principle
  result : Except String (List EvalResult)
deriving Repr

/-- The body of `evaluate_content`, app.py lines 93-104, by recursion on
the remaining catalog.  Each iteration makes exactly one generator call
with budget 256 (line 96); an exception stops the loop at once and
propagates, so no result list is produced.  The loop body only reads the
current principle, which the threaded `catalogAfter` records. -/
def evalAux (gen : Generator) (content : String) : List Principle → LoopOut
  | [] => { calls := [], catalogAfter := [], result := Except.ok [] }
  | p :: ps =>
    let prompt := full_prompt content p
    match gen prompt 256 with
    | Except.error e =>
      { calls := [(prompt, 256)], catalogAfter := p :: ps, result := Except.error e }
    | Except.ok reply =>
      let o := evalAux gen content ps
      { calls := (prompt, 256) :: o.calls,
        catalogAfter := p :: o.catalogAfter,
        result :=
          match o.result with
          | Except.error e => Except.error e
          | Except.ok rs =>
            Except.ok ({ principle := p.title, score := extract_score reply,
                         explanation := strip reply } :: rs) }

/-- `evaluate_content(content)`, app.py lines 92-104, for a given
generator: the returned result list, or the propagated exception. -/
def evaluate_content (gen : Generator) (content : String) :
    Except String (List EvalResult) :=
  (evalAux gen content principles).result

/-- The (prompt, max_new_tokens) trace of the generator calls a run makes. -/
def generationCalls (gen : Generator) (content : String) : List (String × Nat) :=
  (evalAux gen content principles).calls

/-- The catalog as observed after a run of `evaluate_content`. -/
def catalog_after_evaluate (gen : Generator) (content : String) : List Principle :=
  (evalAux gen content principles).catalogAfter

/-! ## The spec's statement of the extraction rule

A second rendering of score extraction, written from the specification
text rather than from app.py, to be compared with `extract_score`. -/

/-- The decimal strings of the integers 0 through 10, as listed by the
spec's extraction rule. -/
def decimalStrings : List String :=
  ["0", "1", "2", "3", "4", "5", "6", "7", "8", "9", "10"]

/-- Spec wording: the line is selected if it contains any of the decimal
strings 0 through 10 as a substring. -/
def specLineMatches (line : String) : Bool :=
  decimalStrings.any fun d => containsSub d.toList line.toList

/-- Spec wording: select the first line of the reply, in line order, that
matches; if no line matches, use the sentinel line "Score: 0". -/
def specSelectedLine : List String → String
  | [] => "Score: 0"
  | l :: ls => if specLineMatches l then l else specSelectedLine ls

/-- Spec wording: concatenate every digit character of the selected line
in left-to-right order and read the concatenation as a single integer,
0 when the selected line has no digit (the empty concatenation). -/
def spec_extract_score (reply : String) : Int :=
  (digitsVal (((specSelectedLine (splitlines reply)).toList).filter isDigitChar) : Int)

/-! ## Content acquisition (app.py lines 62-73) -/

/-- `scrape_url`, app.py lines 62-73.  The whole body sits in a
`try/except Exception` block, so the function never raises.  The HTTP
fetch (`requests.get` + `raise_for_status`) is the external collaborator:
`Except.ok body` is the response text of a successful 2xx fetch and
`Except.error e` any raised failure (network error, non-2xx status,
timeout), with `e` the exception's message.  The BeautifulSoup visible-
text extraction applied to a successful body is abstracted as the total
function `extractText`. -/
def scrape_url (extractText : String → String)
    (fetch : Except String String) : String :=
  match fetch with
  | Except.ok body => extractText body
  | Except.error e => "Error scraping URL: " ++ e

/-! ## Model loading (app.py lines 11-15)

Lines 11-13 of app.py read

    st.cache_resource
    def load_model():
        return pipeline("text-generation", ...)

The first line is a bare expression statement, not a decorator (the `@`
is missing), so `load_model` is NOT wrapped by `st.cache_resource`.
Streamlit re-executes the whole script on every user interaction, and
line 15 `generator = load_model()` therefore re-initializes the pipeline
on every rerun of the script within the process. -/

/-- Whether `st.cache_resource` is applied to `load_model` as a
decorator.  From app.py line 11: the `@` is absent, so it is not. -/
def cache_resource_applied : Bool := false

/-- Number of times the text-generation pipeline is initialized in a
process whose script is executed `reruns` times: with the cache decorator
the first execution would store the resource and later executions reuse
it; without it, every execution calls `pipeline(...)` anew. -/
def model_initializations (reruns : Nat) : Nat :=
  if cache_resource_applied then min reruns 1 else reruns

/-! ## Presentation layer (app.py lines 122-123) -/

/-- app.py line 122:
`avg_score = sum(r['Score'] for r in scores) / len(scores)`, with Python
true division modelled over the exact rationals. -/
def avg_score (rs : List EvalResult) : ℚ :=
  (((rs.map fun r => r.score).sum : Int) : ℚ) / (rs.length : ℚ)

/-- Round to the nearest integer, ties to even: the rounding used when a
value exactly representable in binary floating point is rendered with a
`.1f` format. -/
def roundHalfEven (q : ℚ) : ℤ :=
  let f := ⌊q⌋
  if q - f < 1 / 2 then f
  else if q - f > 1 / 2 then f + 1
  else if f % 2 = 0 then f else f + 1

/-- The overall score rendered by app.py line 123 as `{avg_score:.1f}`,
expressed in tenths: the displayed string is this integer divided by 10.
(The arithmetic is exact for every realistic run: the sum of the integer
scores divided by 8 is a dyadic rational, represented exactly by the
float.) -/
def overall_display_tenths (rs : List EvalResult) : ℤ :=
  roundHalfEven (10 * avg_score rs)

/-! ## Concrete instances used as witnesses -/

/-- A generator stub that always answers "Score: 7 out of 10.". -/
def constGen : Generator := fun _ _ => Except.ok "Score: 7 out of 10."

/-- The third catalog entry (Citation-Worthiness). -/
def thirdPrinciple : Principle := principles.get ⟨2, by decide⟩

/-- A generator stub that raises exactly on the third principle's prompt
for content "c" and answers "ok" elsewhere. -/
def failThirdGen : Generator := fun s _ =>
  if s = full_prompt "c" thirdPrinciple then Except.error "boom" else Except.ok "ok"

/-- The run produced by `constGen` on any content: every principle gets
the documented degenerate score 710. -/
def exampleRun : List EvalResult :=
  principles.map fun p =>
    { principle := p.title, score := 710, explanation := "Score: 7 out of 10." }

/-! ## Helper lemmas -/

/-- The code's line filter coincides with the spec's: checking the
rendered decimal strings of `range(0, 11)` is checking the eleven listed
decimal strings. -/
theorem matchesScoreCheck_eq_spec (l : String) :
    matchesScoreCheck l = specLineMatches l := rfl

/-- First-match selection with a default agrees with the spec's recursive
selection. -/
theorem find_matching_line_eq_spec (ls : List String) :
    (ls.find? matchesScoreCheck).getD "Score: 0" = specSelectedLine ls := by
  induction ls with
  | nil => rfl
  | cons l ls ih =>
    cases h : specLineMatches l with
    | true =>
      rw [List.find?_cons_of_pos _ ((matchesScoreCheck_eq_spec l).trans h)]
      simp [specSelectedLine, h]
    | false =>
      rw [List.find?_cons_of_neg]
      · simp [specSelectedLine, h, ih]
      · simp [matchesScoreCheck_eq_spec, h]

/-- The selected line of the code is the selected line of the spec. -/
theorem score_line_eq_spec (reply : String) :
    score_line reply = specSelectedLine (splitlines reply) := by
  unfold score_line
  exact find_matching_line_eq_spec (splitlines reply)

/-- A character list with no digit filters to the empty list. -/
theorem filter_digits_nil (l : List Char) (h : l.any isDigitChar = false) :
    l.filter isDigitChar = [] := by
  induction l with
  | nil => rfl
  | cons c cs ih =>
    simp only [List.any_cons, Bool.or_eq_false_iff] at h
    simp [List.filter_cons, h.1, ih h.2]

/-- The extracted score is never negative: it is either a digit value
(a natural number) or the literal 0. -/
theorem extract_score_nonneg (reply : String) : 0 ≤ extract_score reply := by
  simp only [extract_score]
  split
  · exact Int.natCast_nonneg _
  · exact le_refl 0

/-- The loop never alters the catalog it iterates over. -/
theorem evalAux_catalogAfter (gen : Generator) (content : String) :
    ∀ cat : List Principle, (evalAux gen content cat).catalogAfter = cat := by
  intro cat
  induction cat with
  | nil => rfl
  | cons p ps ih =>
    cases hg : gen (full_prompt content p) 256 with
    | error e => simp [evalAux, hg]
    | ok reply => simp [evalAux, hg, ih]

/-- When every generator call succeeds, the loop returns a result list. -/
theorem evalAux_total_ok (gen : Generator) (content : String)
    (h : ∀ s n, ∃ r, gen s n = Except.ok r) :
    ∀ cat : List Principle, ∃ rs, (evalAux gen content cat).result = Except.ok rs := by
  intro cat
  induction cat with
  | nil => exact ⟨[], rfl⟩
  | cons p ps ih =>
    obtain ⟨r, hr⟩ := h (full_prompt content p) 256
    obtain ⟨rs, hrs⟩ := ih
    exact ⟨{ principle := p.title, score := extract_score r, explanation := strip r } :: rs,
           by simp [evalAux, hr, hrs]⟩

/-- Any result list the loop returns carries the titles of the catalog it
was run on, in catalog order. -/
theorem evalAux_ok_titles (gen : Generator) (content : String) :
    ∀ (cat : List Principle) (rs : List EvalResult),
      (evalAux gen content cat).result = Except.ok rs →
      rs.map (fun r => r.principle) = cat.map (fun p => p.title) := by
  intro cat
  induction cat with
  | nil =>
    intro rs h
    simp only [evalAux] at h
    cases h
    rfl
  | cons p ps ih =>
    intro rs h
    cases hg : gen (full_prompt content p) 256 with
    | error e => simp [evalAux, hg] at h
    | ok reply =>
      simp only [evalAux, hg] at h
      cases ho : (evalAux gen content ps).result with
      | error e => rw [ho] at h; cases h
      | ok rs' =>
        rw [ho] at h
        cases h
        simpa using ih rs' ho

/-- Any result list the loop returns has only nonnegative scores. -/
theorem evalAux_scores_nonneg (gen : Generator) (content : String) :
    ∀ (cat : List Principle) (rs : List EvalResult),
      (evalAux gen content cat).result = Except.ok rs →
      ∀ r ∈ rs, 0 ≤ r.score := by
  intro cat
  induction cat with
  | nil =>
    intro rs h
    simp only [evalAux] at h
    cases h
    intro r hr
    cases hr
  | cons p ps ih =>
    intro rs h
    cases hg : gen (full_prompt content p) 256 with
    | error e => simp [evalAux, hg] at h
    | ok reply =>
      simp only [evalAux, hg] at h
      cases ho : (evalAux gen content ps).result with
      | error e => rw [ho] at h; cases h
      | ok rs' =>
        rw [ho] at h
        cases h
        intro r hr
        rcases List.mem_cons.mp hr with hr | hr
        · subst hr; exact extract_score_nonneg reply
        · exact ih rs' ho r hr

/-- Every generator call the loop makes uses the exact concatenated
prompt of some catalog entry and the budget 256. -/
theorem evalAux_calls_shape (gen : Generator) (content : String) :
    ∀ cat : List Principle, ∀ c ∈ (evalAux gen content cat).calls,
      ∃ p ∈ cat, c = (full_prompt content p, 256) := by
  intro cat
  induction cat with
  | nil => intro c hc; cases hc
  | cons p ps ih =>
    intro c hc
    cases hg : gen (full_prompt content p) 256 with
    | error e =>
      simp only [evalAux, hg] at hc
      rcases List.mem_singleton.mp hc with rfl
      exact ⟨p, List.mem_cons_self p ps, rfl⟩
    | ok reply =>
      simp only [evalAux, hg] at hc
      rcases List.mem_cons.mp hc with rfl | hc
      · exact ⟨p, List.mem_cons_self p ps, rfl⟩
      · obtain ⟨q, hq, hcq⟩ := ih c hc
        exact ⟨q, List.mem_cons_of_mem p hq, hcq⟩

/-- If the generator succeeds on every principle of `pre` and raises on
`pbad`, the loop over `pre ++ pbad :: rest` propagates that error, and the
calls made are exactly one per principle of `pre ++ [pbad]`, in order:
the loop aborts at the failure, retries nothing, and never reaches
`rest`. -/
theorem evalAux_abort (gen : Generator) (content : String) :
    ∀ (pre : List Principle) (pbad : Principle) (rest : List Principle) (e : String),
      (∀ p ∈ pre, ∃ r, gen (full_prompt content p) 256 = Except.ok r) →
      gen (full_prompt content pbad) 256 = Except.error e →
      (evalAux gen content (pre ++ pbad :: rest)).result = Except.error e ∧
      (evalAux gen content (pre ++ pbad :: rest)).calls
        = (pre ++ [pbad]).map (fun p => (full_prompt content p, 256)) := by
  intro pre
  induction pre with
  | nil =>
    intro pbad rest e _ herr
    constructor
    · simp [evalAux, herr]
    · simp [evalAux, herr]
  | cons q pre ih =>
    intro pbad rest e hok herr
    obtain ⟨r, hr⟩ := hok q (List.mem_cons_self q pre)
    have hok' : ∀ p ∈ pre, ∃ r, gen (full_prompt content p) 256 = Except.ok r :=
      fun p hp => hok p (List.mem_cons_of_mem q hp)
    obtain ⟨hres, hcalls⟩ := ih pbad rest e hok' herr
    constructor
    · simp [evalAux, hr, hres]
    · simp [evalAux, hr, hcalls]

/-! ## Claims -/

/-- C1: for every reply string, the extracted score follows the documented
rule: select the first line containing any of the decimal strings "0"
through "10" as a substring, falling back to the sentinel line "Score: 0";
concatenate the digit characters of the selected line left to right and
read them as one integer, 0 when the line has no digit.  In particular
the reply "Score: 7 out of 10." yields 710, not 7. -/
theorem score_extraction_follows_documented_rule :
    (∀ reply, extract_score reply = spec_extract_score reply) ∧
    extract_score "Score: 7 out of 10." = 710 := by
  constructor
  · intro reply
    have hsel := score_line_eq_spec reply
    cases h : (specSelectedLine (splitlines reply)).toList.any isDigitChar with
    | true =>
      simp only [extract_score, spec_extract_score, hsel, h, if_true]
    | false =>
      simp only [extract_score, spec_extract_score, hsel, h]
      rw [filter_digits_nil _ h]
      rfl
  · decide

/-- C2, counterexample: with a generator that always replies
"Score: 7 out of 10.", every one of the 8 scores of the run is 710,
which is not in [0, 10]. -/
theorem score_range_counterexample :
    (evaluate_content constGen "x").map (fun rs => rs.map fun r => r.score)
      = Except.ok [710, 710, 710, 710, 710, 710, 710, 710] ∧
    ¬((710 : Int) ≤ 10) := by
  exact ⟨by rfl, by decide⟩

/-- C2, amended: every score of a returned run is a nonnegative integer
(the upper bound 10 of the original claim does not hold in general). -/
theorem evaluation_scores_nonneg (gen : Generator) (content : String)
    (rs : List EvalResult) (h : evaluate_content gen content = Except.ok rs) :
    ∀ r ∈ rs, 0 ≤ r.score :=
  evalAux_scores_nonneg gen content principles rs h

/-- Witness for C2 (amended) at the constant generator and the first
result of its run. -/
theorem evaluation_scores_nonneg_witness :
    0 ≤ ({ principle := "Chunk-Level Retrieval", score := 710,
           explanation := "Score: 7 out of 10." } : EvalResult).score :=
  evaluation_scores_nonneg constGen "x" exampleRun (by rfl) _ (by decide)

/-- C3: when every generator call returns a reply, `evaluate_content`
returns a result list of length `principles.length = 8` whose entries
carry the catalog titles in catalog order; no result is dropped. -/
theorem evaluation_covers_catalog_in_order (gen : Generator) (content : String)
    (h : ∀ s n, ∃ r, gen s n = Except.ok r) :
    ∃ rs, evaluate_content gen content = Except.ok rs ∧
      rs.length = principles.length ∧ principles.length = 8 ∧
      rs.map (fun r => r.principle) = principles.map (fun p => p.title) := by
  obtain ⟨rs, hrs⟩ := evalAux_total_ok gen content h principles
  have hmap := evalAux_ok_titles gen content principles rs hrs
  refine ⟨rs, hrs, ?_, by decide, hmap⟩
  have := congrArg List.length hmap
  simpa using this

/-- Witness for C3 at the constant generator. -/
theorem evaluation_covers_catalog_in_order_witness :
    ∃ rs, evaluate_content constGen "x" = Except.ok rs ∧
      rs.length = principles.length ∧ principles.length = 8 ∧
      rs.map (fun r => r.principle) = principles.map (fun p => p.title) :=
  evaluation_covers_catalog_in_order constGen "x"
    (fun _ _ => ⟨"Score: 7 out of 10.", rfl⟩)

/-- C4: if the generator succeeds on an initial segment of the catalog and
raises on the next principle, the run propagates that very error — no
result list (in particular no partial one) is returned — and the calls
made are exactly one per principle up to and including the failing one,
so nothing is retried and the remaining principles are never reached. -/
theorem generation_failure_aborts_run (gen : Generator) (content : String)
    (pre : List Principle) (pbad : Principle) (rest : List Principle) (e : String)
    (hcat : principles = pre ++ pbad :: rest)
    (hok : ∀ p ∈ pre, ∃ r, gen (full_prompt content p) 256 = Except.ok r)
    (herr : gen (full_prompt content pbad) 256 = Except.error e) :
    evaluate_content gen content = Except.error e ∧
    generationCalls gen content
      = (pre ++ [pbad]).map (fun p => (full_prompt content p, 256)) := by
  have h := evalAux_abort gen content pre pbad rest e hok herr
  unfold evaluate_content generationCalls
  rw [hcat]
  exact h

/-- Witness for C4: a generator raising on the 3rd of the 8 principles. -/
theorem generation_failure_aborts_run_witness :
    evaluate_content failThirdGen "c" = Except.error "boom" ∧
    generationCalls failThirdGen "c"
      = (principles.take 2 ++ [thirdPrinciple]).map (fun p => (full_prompt "c" p, 256)) :=
  generation_failure_aborts_run failThirdGen "c" (principles.take 2) thirdPrinciple
    (principles.drop 3) "boom" (by rfl)
    (by
      intro p hp
      have hp' : p = principles.get ⟨0, by decide⟩ ∨ p = principles.get ⟨1, by decide⟩ := by
        simpa [principles] using hp
      rcases hp' with rfl | rfl
      · exact ⟨"ok", by rfl⟩
      · exact ⟨"ok", by rfl⟩)
    (by rfl)

/-- C5: every generator call of a run consists of exactly the prompt
"Content:\n" ++ content ++ "\n\nInstruction:\n" ++ p.prompt for some
catalog principle p — the raw content, untruncated and unescaped — and
the fixed budget of 256 new tokens. -/
theorem prompt_construction_exact (gen : Generator) (content : String)
    (c : String × Nat) (hc : c ∈ generationCalls gen content) :
    ∃ p ∈ principles,
      c = ("Content:\n" ++ content ++ "\n\nInstruction:\n" ++ p.prompt, 256) :=
  evalAux_calls_shape gen content principles c hc

/-- Witness for C5 at the constant generator and content "c". -/
theorem prompt_construction_exact_witness :
    ∃ p ∈ principles,
      (full_prompt "c" thirdPrinciple, 256)
        = ("Content:\n" ++ "c" ++ "\n\nInstruction:\n" ++ p.prompt, 256) :=
  prompt_construction_exact constGen "c" (full_prompt "c" thirdPrinciple, 256)
    (by decide)

/-- C6: on any fetch failure `scrape_url` returns (never raises) a string
beginning with "Error scraping URL:", and the pipeline then runs normally
over that string as literal content, producing a full 8-entry run. -/
theorem scrape_error_string_flows_as_content
    (extractText : String → String) (e : String) (gen : Generator)
    (hgen : ∀ s n, ∃ r, gen s n = Except.ok r) :
    (∃ tail, scrape_url extractText (Except.error e) = "Error scraping URL: " ++ tail) ∧
    ∃ rs, evaluate_content gen (scrape_url extractText (Except.error e)) = Except.ok rs ∧
      rs.length = 8 := by
  refine ⟨⟨e, rfl⟩, ?_⟩
  obtain ⟨rs, hrs⟩ :=
    evalAux_total_ok gen (scrape_url extractText (Except.error e)) hgen principles
  have hmap := evalAux_ok_titles gen _ principles rs hrs
  refine ⟨rs, hrs, ?_⟩
  have := congrArg List.length hmap
  simpa using this

/-- Witness for C6 at a timeout failure and the constant generator. -/
theorem scrape_error_string_flows_as_content_witness :
    (∃ tail, scrape_url id (Except.error "timeout") = "Error scraping URL: " ++ tail) ∧
    ∃ rs, evaluate_content constGen (scrape_url id (Except.error "timeout")) = Except.ok rs ∧
      rs.length = 8 :=
  scrape_error_string_flows_as_content id "timeout" constGen
    (fun _ _ => ⟨"Score: 7 out of 10.", rfl⟩)

/-- C7: a run that returns a result list has exactly 8 results, and the
overall score it displays is the arithmetic mean sum(scores)/8, rendered
to one decimal place (`overall_display_tenths` is that rendering in
tenths). -/
theorem average_is_mean_of_eight (gen : Generator) (content : String)
    (rs : List EvalResult) (h : evaluate_content gen content = Except.ok rs) :
    rs.length = 8 ∧
    avg_score rs = (((rs.map fun r => r.score).sum : Int) : ℚ) / 8 ∧
    overall_display_tenths rs
      = roundHalfEven (10 * ((((rs.map fun r => r.score).sum : Int) : ℚ) / 8)) := by
  have hmap := evalAux_ok_titles gen content principles rs h
  have hlen : rs.length = 8 := by
    have := congrArg List.length hmap
    simpa using this
  refine ⟨hlen, ?_, ?_⟩
  · unfold avg_score
    rw [hlen]
    norm_num
  · unfold overall_display_tenths avg_score
    rw [hlen]
    norm_num

/-- Witness for C7 at the constant generator. -/
theorem average_is_mean_of_eight_witness :
    exampleRun.length = 8 ∧
    avg_score exampleRun = (((exampleRun.map fun r => r.score).sum : Int) : ℚ) / 8 ∧
    overall_display_tenths exampleRun
      = roundHalfEven (10 * ((((exampleRun.map fun r => r.score).sum : Int) : ℚ) / 8)) :=
  average_is_mean_of_eight constGen "x" exampleRun (by rfl)

/-- C8: the claim fails on the code.  app.py line 11 is the bare
expression `st.cache_resource` — the decorator `@` is missing — so
`load_model` is not cached: a process whose script is executed twice
(Streamlit reruns the whole script on each interaction) initializes the
text-generation pipeline twice, not once. -/
theorem model_reinitialized_each_rerun :
    cache_resource_applied = false ∧
    model_initializations 2 = 2 ∧ model_initializations 2 ≠ 1 := by decide

/-- C9: the catalog is a fixed list of exactly 8 principles and no
evaluation run alters it: the catalog observed after any run, whatever
the generator and content, is the original list (hence every title,
description and prompt is unchanged). -/
theorem catalog_immutable_eight :
    principles.length = 8 ∧
    ∀ (gen : Generator) (content : String),
      catalog_after_evaluate gen content = principles := by
  refine ⟨by decide, ?_⟩
  intro gen content
  exact evalAux_catalogAfter gen content principles

/-- C10: the pipeline adds no nondeterminism of its own: it is a function
of the generator and the content, and any two generators that agree on
every (prompt, budget) pair yield identical result sequences on the same
content. -/
theorem pipeline_deterministic (ga gb : Generator) (content : String)
    (h : ∀ s n, ga s n = gb s n) :
    evaluate_content ga content = evaluate_content gb content := by
  have hg : ga = gb := funext fun s => funext fun n => h s n
  rw [hg]

/-- Witness for C10 at the constant generator. -/
theorem pipeline_deterministic_witness :
    evaluate_content constGen "x" = evaluate_content constGen "x" :=
  pipeline_deterministic constGen constGen "x" (fun _ _ => rfl)

end AISearchEval
